import Mathlib

/-!
Verification of the Streamlit chat demo `examples/gui/pages/llama3_1.py`.

The script is a single top-to-bottom page that reruns on every interaction.
We shallow-embed it as pure Lean functions over an explicit session state:

* `SessionState` models `st.session_state` (the optional `"model"` key and
  the optional `"messages"` transcript).
* `WidgetInputs` models the values the sidebar and chat widgets deliver on
  one rerun.
* `Externals` bundles the opaque library calls the script delegates to
  (response streaming from `stream_output`, the vector-collection query, and
  the `RAG_PROMPT` template from `shared.py`); they are arbitrary function
  parameters because their implementations are outside this file.
* `rerun` is one execution of the script body; it returns the new session
  state (`none` models an uncaught exception) together with the log of
  vector-collection queries issued during the rerun.
-/

/-- The quantization encodings of `pipelines.llama3.config.SupportedEncodings`
that this page mentions (lines 84-95 of the source). -/
inductive SupportedEncodings where
  | float32
  | bfloat16
  | q4_0
  | q4_k
  | q6_k
deriving DecidableEq, BEq, Repr

/-- `InferenceConfig` as constructed at lines 61-66. -/
structure InferenceConfig where
  weight_path : String
  quantization_encoding : SupportedEncodings
  max_length : Nat
  max_new_tokens : Nat
deriving DecidableEq, Repr

/-- The inference engine object; its internals are external to the script, so
it is modelled as the configuration it was constructed from. -/
structure Llama3 where
  config : InferenceConfig
deriving DecidableEq, Repr

/-- `start_llama3` (lines 55-67): builds an `InferenceConfig` and hands it to
the `Llama3` constructor. The `st.cache_resource` memoisation does not change
the value produced. -/
def start_llama3 (weight_path : String) (quantization : SupportedEncodings)
    (max_length : Nat) (max_new_tokens : Nat) : Llama3 :=
  ⟨⟨weight_path, quantization, max_length, max_new_tokens⟩⟩

/-- A record of the chat transcript `st.session_state.messages`: the dict
literals appended at lines 194-195 have exactly the keys `role`, `avatar`
and `content`. -/
structure TranscriptMessage where
  role : String
  avatar : String
  content : String
deriving DecidableEq, Repr

/-- A message dict with the keys `role` and `content`, as built for the model
prompt at lines 157-178. -/
structure PromptMessage where
  role : String
  content : String
deriving DecidableEq, Repr

/-- `messages_to_llama3_prompt` (lines 70-78), a direct transcription of the
string-building loop. -/
def messages_to_llama3_prompt (messages : List PromptMessage) : String :=
  (messages.foldl
    (fun prompt_string message =>
      prompt_string
        ++ ("<|start_header_id|>" ++ message.role ++ "<|end_header_id|>\n\n")
        ++ (message.content ++ "<|eot_id|>\n"))
    "<|begin_of_text|>")
  ++ "<|start_header_id|>assistant<|end_header_id|>"

/-- The claim C8 formula, written from the spec sentence rather than from the
loop: header, one block per message, assistant trailer. -/
def llama3_prompt_spec (messages : List PromptMessage) : String :=
  "<|begin_of_text|>"
    ++ String.join (messages.map (fun message =>
        "<|start_header_id|>" ++ message.role ++ "<|end_header_id|>\n\n"
          ++ message.content ++ "<|eot_id|>\n"))
    ++ "<|start_header_id|>assistant<|end_header_id|>"

/-- The options list of the sidebar `Encoding` selectbox (lines 81-88). -/
def encoding_options : List SupportedEncodings :=
  [.q4_k, .q4_0, .q6_k]

/-- The `model_name` dict (lines 90-96) as an association list. -/
def model_name : List (SupportedEncodings × String) :=
  [(.float32, "llama-3.1-8b-instruct-f32.gguf"),
   (.bfloat16, "llama-3.1-8b-instruct-bf16.gguf"),
   (.q4_0, "llama-3.1-8b-instruct-q4_0.gguf"),
   (.q4_k, "llama-3.1-8b-instruct-q4_k_m.gguf"),
   (.q6_k, "llama-3.1-8b-instruct-q6_k.gguf")]

/-- A numeric slider widget described by the positional arguments of
`st.sidebar.slider`: minimum, maximum, initial value. -/
structure Slider where
  minValue : Nat
  maxValue : Nat
  defaultValue : Nat
deriving DecidableEq, Repr

/-- `st.sidebar.slider("Number of Top Embedding Search Results", 1, 7, 5)`
(lines 123-125). -/
def n_result_slider : Slider := ⟨1, 7, 5⟩

/-- The values a slider widget can return: it is clamped to its range. -/
def Slider.admits (sl : Slider) (v : Nat) : Prop :=
  sl.minValue ≤ v ∧ v ≤ sl.maxValue

instance (sl : Slider) (v : Nat) : Decidable (sl.admits v) := by
  unfold Slider.admits; infer_instance

/-- One entry of the RAG directory as the file system presents it:
`os.listdir` yields its name, `os.path.isfile` tells whether it is a
regular file. -/
structure DirEntry where
  name : String
  isFile : Bool
deriving DecidableEq, Repr

/-- `files_observed` (lines 130-134): the names of the directory entries
that pass the `os.path.isfile` filter, in listing order. These are the names
handed to `load_embed_docs` at line 136. -/
def files_observed (listing : List DirEntry) : List String :=
  (listing.filter (fun f => f.isFile)).map (fun f => f.name)

/-- One metadata dict of a vector-collection query result; the script reads
only its `file_name` key (line 170). -/
structure Metadata where
  file_name : String
deriving DecidableEq, Repr

/-- The result dict of `collection.query` (line 164): the script reads the
`documents` and `metadatas` fields, either of which may be `None`. -/
structure QueryResult where
  documents : Option (List (List String))
  metadatas : Option (List (List Metadata))

/-- One vector-collection query issued by the script: the user prompt it
embeds and the `n_results` argument. -/
structure QueryCall where
  queryPrompt : String
  nResults : Nat
deriving DecidableEq, Repr

/-- The opaque library calls the script delegates to. `collectionQuery`
composes `embedding_model.embed` (line 163) with `collection.query`
(line 164); `ragFormat` is `RAG_PROMPT.format` from `shared.py`
(line 174); `streamOutput` is the awaited `stream_output` call
(lines 189-191), returning the completed response string. -/
structure Externals where
  streamOutput : String → String
  collectionQuery : String → Nat → QueryResult
  ragFormat : String → List (String × String) → String

/-- `st.session_state` as the script uses it: the `"model"` key (absent
until the start button has run) and the `"messages"` key (absent until the
initialisation at lines 145-146). -/
structure SessionState where
  model : Option Llama3
  messages : Option (List TranscriptMessage)

/-- Session state at the start of a UI session: neither key is present. -/
def initialState : SessionState := ⟨none, none⟩

/-- The widget values delivered to one rerun of the script. `chat_input` is
what `st.chat_input` would return were it enabled (`none` when the user
submitted nothing). -/
structure WidgetInputs where
  encoding : SupportedEncodings
  max_length : Nat
  max_new_tokens : Nat
  startClicked : Bool
  rag : Bool
  system_prompt : String
  n_result : Nat
  chat_input : Option String

/-- Line 154: `disable_chat = True if "model" not in st.session_state else
False`. -/
def disable_chat (s : SessionState) : Bool :=
  if s.model.isNone then true else false

/-- The `data` list built from the query result (lines 165-170): empty unless
both `documents` and `metadatas` are non-`None`; otherwise one pair per
zipped `(doc, metadata)` with `"\n\n".join(doc)` and
`metadata[0]["file_name"]`. The indexing `metadata[0]` raises on an empty
metadata list, which `none` models. -/
def buildRagData (ret : QueryResult) : Option (List (String × String)) :=
  match ret.documents, ret.metadatas with
  | some docs, some metas =>
      (docs.zip metas).mapM (fun dm =>
        match dm.2.head? with
        | some m0 => some (String.intercalate "\n\n" dm.1, m0.file_name)
        | none => none)
  | _, _ => some []

/-- The body of `if prompt := st.chat_input(...)` (lines 156-196), run with
the transcript already initialised. Builds the prompt message list, performs
the RAG query when `rag` is ticked, streams the response, and appends the
user and assistant records to the transcript. Returns the new state
(`none` for an uncaught exception) and the vector queries issued. -/
def handlePrompt (ext : Externals) (w : WidgetInputs) (s : SessionState)
    (prompt : String) : Option SessionState × List QueryCall :=
  let history : List PromptMessage :=
    ⟨"system", w.system_prompt⟩ ::
      (s.messages.getD []).map (fun m => ⟨m.role, m.content⟩)
  let finish (userContent : String) (queries : List QueryCall) :
      Option SessionState × List QueryCall :=
    let messages := history ++ [⟨"user", userContent⟩]
    let response := ext.streamOutput (messages_to_llama3_prompt messages)
    (some { s with
        messages := some ((s.messages.getD [])
          ++ [⟨"user", "💬", prompt⟩, ⟨"assistant", "🦙", response⟩]) },
     queries)
  if w.rag then
    let ret := ext.collectionQuery prompt w.n_result
    match buildRagData ret with
    | none => (none, [⟨prompt, w.n_result⟩])
    | some data => finish (ext.ragFormat prompt data) [⟨prompt, w.n_result⟩]
  else
    finish prompt []

/-- Lines 106-114: when the start button was clicked, construct the engine
and store it under the `"model"` key. `weights` is the path returned by
`hf_streamlit_download` for `model_name[encoding]` (line 102). -/
def afterButton (weights : String) (w : WidgetInputs) (s : SessionState) :
    SessionState :=
  if w.startClicked then
    { s with model := some (start_llama3 weights w.encoding
        w.max_length w.max_new_tokens) }
  else s

/-- Lines 145-146: initialise `st.session_state.messages` to `[]` when the
key is absent. -/
def initMessages (s : SessionState) : SessionState :=
  { s with messages := some (s.messages.getD []) }

/-- The prompt `st.chat_input` delivers on this rerun: nothing when the
widget is disabled (line 156). -/
def effectiveInput (w : WidgetInputs) (s : SessionState) : Option String :=
  if disable_chat s then none else w.chat_input

/-- One top-to-bottom execution of the script. The weight-file lookup
`model_name[encoding]` (line 102) raises a `KeyError` when the encoding has
no entry; the start button (lines 106-114) stores a model in session state;
lines 145-146 initialise the transcript; line 154 computes `disable_chat`;
a disabled chat input returns no prompt. The RAG indexing (lines 130-137)
only feeds the external collection and touches no session state, so it
contributes no state transition here. -/
def rerun (ext : Externals) (w : WidgetInputs) (s : SessionState) :
    Option SessionState × List QueryCall :=
  match List.lookup w.encoding model_name with
  | none => (none, [])
  | some weights =>
      let s2 : SessionState := initMessages (afterButton weights w s)
      match effectiveInput w s2 with
      | none => (some s2, [])
      | some prompt => handlePrompt ext w s2 prompt

/-- A sequence of reruns within one UI session; an exception aborts it. -/
def runSession (ext : Externals) (inputs : List WidgetInputs)
    (s : SessionState) : Option SessionState :=
  match inputs with
  | [] => some s
  | w :: ws =>
      match (rerun ext w s).1 with
      | none => none
      | some s1 => runSession ext ws s1

/-! ### Test fixtures shared by the witness theorems -/

/-- A concrete inference engine value for witnesses. -/
def testModel : Llama3 := ⟨⟨"llama-3.1-8b-instruct-q4_k_m.gguf", .q4_k, 12000, 6000⟩⟩

/-- Concrete externals: a constant streamed response, a query result with
both fields `None`, and a RAG template that returns the query unchanged. -/
def testExt : Externals :=
  ⟨fun _ => "a response", fun _ _ => ⟨none, none⟩, fun q _ => q⟩

/-- Concrete widget inputs: default sidebar values, RAG off, prompt "hi". -/
def testW : WidgetInputs :=
  ⟨.q4_k, 12000, 6000, false, false, "You are a helpful coding assistant named MAX Llama3.", 5, some "hi"⟩

/-- The same widget inputs with RAG ticked. -/
def testWrag : WidgetInputs :=
  ⟨.q4_k, 12000, 6000, false, true, "sys", 5, some "hi"⟩

/-- A session state with a started model and an empty transcript. -/
def testS : SessionState := ⟨some testModel, some []⟩

/-! ### Helper lemmas -/

/-- Folding string concatenation from `a` prepends `a` to the fold from the
empty string. -/
theorem foldl_strcat_shift (l : List String) (a : String) :
    l.foldl (fun r s => r ++ s) a = a ++ l.foldl (fun r s => r ++ s) "" := by
  induction l generalizing a with
  | nil => simp [String.append_empty]
  | cons x xs ih =>
      simp only [List.foldl_cons]
      rw [ih (a ++ x), ih ("" ++ x), String.empty_append, String.append_assoc]

/-- `String.join` distributes over `cons`. -/
theorem strjoin_cons (s : String) (l : List String) :
    String.join (s :: l) = s ++ String.join l := by
  simp only [String.join, List.foldl_cons, String.empty_append]
  exact foldl_strcat_shift l s

/-- The block appended for one message by the loop of
`messages_to_llama3_prompt`. -/
def promptBlock (m : PromptMessage) : String :=
  "<|start_header_id|>" ++ m.role ++ "<|end_header_id|>\n\n"
    ++ m.content ++ "<|eot_id|>\n"

/-- The string-building loop of `messages_to_llama3_prompt`, started from any
accumulator, appends the join of the per-message blocks. -/
theorem prompt_foldl_eq (messages : List PromptMessage) (acc : String) :
    messages.foldl
      (fun prompt_string message =>
        prompt_string
          ++ ("<|start_header_id|>" ++ message.role ++ "<|end_header_id|>\n\n")
          ++ (message.content ++ "<|eot_id|>\n"))
      acc
      = acc ++ String.join (messages.map promptBlock) := by
  induction messages generalizing acc with
  | nil =>
      show acc = acc ++ String.join []
      rw [show String.join [] = "" from rfl, String.append_empty]
  | cons m ms ih =>
      simp only [List.foldl_cons]
      rw [ih]
      simp only [List.map_cons, strjoin_cons, promptBlock, String.append_assoc]

/-! ### Claim theorems -/

/-- C8: for every list of messages, `messages_to_llama3_prompt` returns the
string that starts with the begin-of-text header, contains one
start-header/role/end-header/content/eot block per message in list order,
and ends with the assistant header; it is a pure function of its input. -/
theorem C8_messages_to_llama3_prompt_matches_spec
    (messages : List PromptMessage) :
    messages_to_llama3_prompt messages = llama3_prompt_spec messages := by
  unfold messages_to_llama3_prompt llama3_prompt_spec
  rw [prompt_foldl_eq]
  rfl

/-- C7: every encoding offered by the sidebar selectbox has an entry in the
`model_name` dict, so the lookup `model_name[encoding]` never fails. -/
theorem C7_model_name_total_on_options :
    ∀ e ∈ encoding_options, ∃ nm, List.lookup e model_name = some nm := by
  intro e he
  fin_cases he <;> exact ⟨_, rfl⟩

/-- C7 witness: the default selection `q4_k` is an option and its lookup
succeeds. -/
theorem C7_witness :
    ∃ nm, List.lookup SupportedEncodings.q4_k model_name = some nm :=
  C7_model_name_total_on_options SupportedEncodings.q4_k
    (List.mem_cons_self _ _)

/-- C3: the chat input is disabled exactly when the `"model"` key is absent
from session state; once a model is stored the input is enabled, and a rerun
without a model (and without a start click) ignores any submitted prompt and
leaves the transcript unchanged. -/
theorem C3_disable_chat_iff_no_model :
    ∀ s : SessionState,
      (disable_chat s = true ↔ s.model = none) ∧
      (∀ m, s.model = some m → disable_chat s = false) ∧
      (∀ (ext : Externals) (w : WidgetInputs) (wt : String),
        s.model = none → w.startClicked = false →
        List.lookup w.encoding model_name = some wt →
        rerun ext w s =
          (some { model := none, messages := some (s.messages.getD []) }, [])) := by
  intro s
  refine ⟨?_, ?_, ?_⟩
  · cases h : s.model <;> simp [disable_chat, h]
  · intro m hm
    simp [disable_chat, hm]
  · intro ext w wt hm hb hlk
    unfold rerun
    rw [hlk]
    simp [afterButton, initMessages, effectiveInput, disable_chat, hb, hm]

/-- C3 witness: with a started model in session state the chat input is
enabled. -/
theorem C3_witness : disable_chat testS = false :=
  (C3_disable_chat_iff_no_model testS).2.1 testModel rfl

/-- C5 counterexample: a directory whose single entry is a subdirectory.
`files_observed` passes no name to the indexer, yet the entry set of the
directory is nonempty, so the set passed differs from the set of entries. -/
theorem C5_counterexample :
    files_observed [⟨"subdir", false⟩] = [] ∧
      "subdir" ∈ ([⟨"subdir", false⟩] : List DirEntry).map (fun e => e.name) := by
  constructor
  · rfl
  · simp

/-- C5 amended: the set of names passed to the indexer equals the set of
directory entries that are regular files; in particular every regular file
in the directory is included. -/
theorem C5_files_observed_regular_files (listing : List DirEntry) :
    ∀ n : String, n ∈ files_observed listing ↔
      ∃ e ∈ listing, e.isFile = true ∧ e.name = n := by
  intro n
  simp only [files_observed, List.mem_map, List.mem_filter]
  constructor
  · rintro ⟨e, ⟨he, hf⟩, hn⟩
    exact ⟨e, he, hf, hn⟩
  · rintro ⟨e, he, hf, hn⟩
    exact ⟨e, ⟨he, hf⟩, hn⟩

/-- The start button never touches the transcript. -/
theorem afterButton_messages (weights : String) (w : WidgetInputs)
    (s : SessionState) : (afterButton weights w s).messages = s.messages := by
  unfold afterButton
  split <;> rfl

/-- If a model is already in session state, one is still there after the
button phase. -/
theorem afterButton_model_isSome (weights : String) (w : WidgetInputs)
    (s : SessionState) (m : Llama3) (hm : s.model = some m) :
    ∃ m2, (afterButton weights w s).model = some m2 := by
  unfold afterButton
  split
  · exact ⟨_, rfl⟩
  · exact ⟨m, hm⟩

/-- Transcript initialisation never touches the model. -/
theorem initMessages_model (s : SessionState) :
    (initMessages s).model = s.model := rfl

/-- Transcript initialisation materialises the `"messages"` key. -/
theorem initMessages_messages (s : SessionState) :
    (initMessages s).messages = some (s.messages.getD []) := rfl

/-- A successful chat turn leaves the model untouched and appends exactly
the user record (raw prompt, speech-balloon avatar) and the assistant record
(the streamed response to some prompt string, llama avatar). -/
theorem handlePrompt_success (ext : Externals) (w : WidgetInputs)
    (s s' : SessionState) (p : String) (qlog : List QueryCall)
    (h : handlePrompt ext w s p = (some s', qlog)) :
    ∃ ps, s'.model = s.model ∧
      s'.messages = some (s.messages.getD [] ++
        [⟨"user", "💬", p⟩, ⟨"assistant", "🦙", ext.streamOutput ps⟩]) := by
  unfold handlePrompt at h
  dsimp only at h
  by_cases hr : w.rag = true
  · rw [if_pos hr] at h
    cases hb : buildRagData (ext.collectionQuery p w.n_result) with
    | none =>
        rw [hb] at h
        simp at h
    | some data =>
        rw [hb] at h
        dsimp only at h
        injection h with h1 h2
        injection h1 with h1
        subst h1
        exact ⟨_, rfl, rfl⟩
  · rw [if_neg hr] at h
    injection h with h1 h2
    injection h1 with h1
    subst h1
    exact ⟨_, rfl, rfl⟩

/-- On a RAG turn the query log is exactly one call with the raw prompt and
the slider's result count, whether or not the data extraction succeeds. -/
theorem handlePrompt_rag_queries (ext : Externals) (w : WidgetInputs)
    (s : SessionState) (p : String) (hr : w.rag = true) :
    (handlePrompt ext w s p).2 = [⟨p, w.n_result⟩] := by
  unfold handlePrompt
  dsimp only
  rw [if_pos hr]
  cases buildRagData (ext.collectionQuery p w.n_result) <;> rfl

/-- A successful rerun leaves the (initialised) transcript unchanged or
appends exactly a user/assistant pair at the end. -/
theorem rerun_success_shape (ext : Externals) (w : WidgetInputs)
    (s s' : SessionState) (qlog : List QueryCall)
    (h : rerun ext w s = (some s', qlog)) :
    s'.messages = some (s.messages.getD []) ∨
      ∃ p ps, s'.messages = some (s.messages.getD [] ++
        [⟨"user", "💬", p⟩, ⟨"assistant", "🦙", ext.streamOutput ps⟩]) := by
  unfold rerun at h
  cases hlk : List.lookup w.encoding model_name with
  | none =>
      rw [hlk] at h
      simp at h
  | some weights =>
      rw [hlk] at h
      dsimp only at h
      cases hc : effectiveInput w (initMessages (afterButton weights w s)) with
      | none =>
          rw [hc] at h
          dsimp only at h
          injection h with h1 h2
          injection h1 with h1
          subst h1
          left
          rw [initMessages_messages, afterButton_messages]
      | some p =>
          rw [hc] at h
          dsimp only at h
          obtain ⟨ps, hmod, hmsg⟩ := handlePrompt_success ext w _ s' p qlog h
          right
          refine ⟨p, ps, ?_⟩
          rw [hmsg, initMessages_messages, afterButton_messages,
            Option.getD_some]

/-- With a model in session state and a submitted prompt, the chat input is
effectively enabled. -/
theorem effectiveInput_enabled (w : WidgetInputs) (weights : String)
    (s : SessionState) (m : Llama3) (p : String)
    (hm : s.model = some m) (hp : w.chat_input = some p) :
    effectiveInput w (initMessages (afterButton weights w s)) = some p := by
  obtain ⟨m2, hm2⟩ := afterButton_model_isSome weights w s m hm
  unfold effectiveInput disable_chat
  rw [initMessages_model, hm2]
  simpa using hp

/-- A query result whose `documents` or `metadatas` field is `None` yields an
empty `data` list without touching the missing results. -/
theorem buildRagData_of_none (ret : QueryResult)
    (h : ret.documents = none ∨ ret.metadatas = none) :
    buildRagData ret = some [] := by
  obtain ⟨d, mt⟩ := ret
  cases d with
  | none => rfl
  | some docs =>
      cases mt with
      | none => rfl
      | some metas => rcases h with h | h <;> exact absurd h (by simp)

/-- Widget inputs that click the start button and submit no prompt. -/
def testWstart : WidgetInputs :=
  { testW with startClicked := true, chat_input := none }

/-- C1: the transcript is append-only: a rerun only ever adds records at the
end; every record present before (after the lines 145-146 initialisation)
is still there, in place and unmodified, afterwards. -/
theorem C1_transcript_append_only (ext : Externals) (w : WidgetInputs)
    (s s' : SessionState) (qlog : List QueryCall)
    (h : rerun ext w s = (some s', qlog)) :
    ∃ tail, s'.messages = some (s.messages.getD [] ++ tail) := by
  rcases rerun_success_shape ext w s s' qlog h with h1 | ⟨p, ps, h1⟩
  · exact ⟨[], by rw [h1, List.append_nil]⟩
  · exact ⟨_, h1⟩

/-- C1 witness: one concrete rerun with a started model and prompt `hi`. -/
theorem C1_witness :
    ∃ tail, (SessionState.mk (some testModel)
        (some [⟨"user", "💬", "hi"⟩, ⟨"assistant", "🦙", "a response"⟩])).messages
      = some (testS.messages.getD [] ++ tail) :=
  C1_transcript_append_only testExt testW testS
    ⟨some testModel, some [⟨"user", "💬", "hi"⟩, ⟨"assistant", "🦙", "a response"⟩]⟩
    [] rfl

/-- C2: a user turn (submitted prompt with a model in session state) appends
exactly two records, in order: a user record carrying the typed prompt, then
an assistant record carrying the response streamed to completion within the
same rerun. -/
theorem C2_turn_appends_user_then_assistant (ext : Externals)
    (w : WidgetInputs) (s s' : SessionState) (qlog : List QueryCall)
    (m : Llama3) (p : String)
    (hm : s.model = some m) (hp : w.chat_input = some p)
    (h : rerun ext w s = (some s', qlog)) :
    ∃ ps, s'.messages = some (s.messages.getD [] ++
      [⟨"user", "💬", p⟩, ⟨"assistant", "🦙", ext.streamOutput ps⟩]) := by
  unfold rerun at h
  cases hlk : List.lookup w.encoding model_name with
  | none =>
      rw [hlk] at h
      simp at h
  | some weights =>
      rw [hlk] at h
      dsimp only at h
      rw [effectiveInput_enabled w weights s m p hm hp] at h
      dsimp only at h
      obtain ⟨ps, hmod, hmsg⟩ := handlePrompt_success ext w _ s' p qlog h
      refine ⟨ps, ?_⟩
      rw [hmsg, initMessages_messages, afterButton_messages, Option.getD_some]

/-- C2 witness: the concrete turn of `C1_witness`, spelled out. -/
theorem C2_witness :
    ∃ ps, (SessionState.mk (some testModel)
        (some [⟨"user", "💬", "hi"⟩, ⟨"assistant", "🦙", "a response"⟩])).messages
      = some (testS.messages.getD [] ++
        [⟨"user", "💬", "hi"⟩, ⟨"assistant", "🦙", testExt.streamOutput ps⟩]) :=
  C2_turn_appends_user_then_assistant testExt testW testS
    ⟨some testModel, some [⟨"user", "💬", "hi"⟩, ⟨"assistant", "🦙", "a response"⟩]⟩
    [] testModel "hi" rfl rfl rfl

/-- The transcript-record invariant of C4: each record's role is system,
user or assistant (the three-field shape is the `TranscriptMessage` type
itself). -/
def rolesOk (s : SessionState) : Prop :=
  ∀ m ∈ s.messages.getD [],
    m.role = "system" ∨ m.role = "user" ∨ m.role = "assistant"

/-- One rerun preserves the transcript-record invariant. -/
theorem rerun_preserves_rolesOk (ext : Externals) (w : WidgetInputs)
    (s s' : SessionState) (qlog : List QueryCall)
    (h : rerun ext w s = (some s', qlog)) (hs : rolesOk s) : rolesOk s' := by
  rcases rerun_success_shape ext w s s' qlog h with h1 | ⟨p, ps, h1⟩
  · intro m hm
    rw [h1] at hm
    exact hs m (by simpa using hm)
  · intro m hm
    rw [h1] at hm
    simp only [Option.getD_some, List.mem_append, List.mem_cons,
      List.not_mem_nil, or_false] at hm
    rcases hm with hm | hm | hm
    · exact hs m hm
    · subst hm
      exact Or.inr (Or.inl rfl)
    · subst hm
      exact Or.inr (Or.inr rfl)

/-- Any run of reruns preserves the transcript-record invariant. -/
theorem runSession_preserves_rolesOk (ext : Externals)
    (inputs : List WidgetInputs) :
    ∀ s s' : SessionState, rolesOk s →
      runSession ext inputs s = some s' → rolesOk s' := by
  induction inputs with
  | nil =>
      intro s s' hs h
      unfold runSession at h
      injection h with h
      subst h
      exact hs
  | cons w ws ih =>
      intro s s' hs h
      unfold runSession at h
      cases hr : (rerun ext w s).1 with
      | none =>
          rw [hr] at h
          simp at h
      | some s1 =>
          rw [hr] at h
          dsimp only at h
          exact ih s1 s'
            (rerun_preserves_rolesOk ext w s s1 (rerun ext w s).2
              (Prod.ext hr rfl) hs) h

/-- C4: after any sequence of reruns of a fresh session, every record of the
transcript is a `TranscriptMessage` (exactly the fields role, avatar,
content) whose role is system, user or assistant. -/
theorem C4_transcript_records_well_formed (ext : Externals)
    (inputs : List WidgetInputs) (s' : SessionState)
    (h : runSession ext inputs initialState = some s') :
    ∀ m ∈ s'.messages.getD [],
      m.role = "system" ∨ m.role = "user" ∨ m.role = "assistant" :=
  runSession_preserves_rolesOk ext inputs initialState s'
    (by intro m hm; simp [initialState] at hm) h

/-- C4 witness: a session that starts the model and then chats once; the
user record it appends satisfies the role invariant. -/
theorem C4_witness :
    (⟨"user", "💬", "hi"⟩ : TranscriptMessage).role = "system" ∨
      (⟨"user", "💬", "hi"⟩ : TranscriptMessage).role = "user" ∨
      (⟨"user", "💬", "hi"⟩ : TranscriptMessage).role = "assistant" :=
  C4_transcript_records_well_formed testExt [testWstart, testW]
    ⟨some testModel, some [⟨"user", "💬", "hi"⟩, ⟨"assistant", "🦙", "a response"⟩]⟩
    rfl ⟨"user", "💬", "hi"⟩ (by simp)

/-- C6: with RAG active, a user turn issues exactly one vector-collection
query, for the raw prompt with `n_results` equal to the slider value; the
slider's range is 1 to 7 and its initial value 5. -/
theorem C6_rag_issues_one_topk_query (ext : Externals) (w : WidgetInputs)
    (s : SessionState) (m : Llama3) (p wt : String)
    (hm : s.model = some m) (hp : w.chat_input = some p) (hr : w.rag = true)
    (hlk : List.lookup w.encoding model_name = some wt)
    (hk : n_result_slider.admits w.n_result) :
    (rerun ext w s).2 = [⟨p, w.n_result⟩] ∧
      1 ≤ w.n_result ∧ w.n_result ≤ 7 ∧ n_result_slider.defaultValue = 5 := by
  refine ⟨?_, hk.1, hk.2, rfl⟩
  unfold rerun
  rw [hlk]
  dsimp only
  rw [effectiveInput_enabled w wt s m p hm hp]
  exact handlePrompt_rag_queries ext w _ p hr

/-- C6 witness: the concrete RAG turn queries once with k = 5. -/
theorem C6_witness :
    (rerun testExt testWrag testS).2 = [⟨"hi", 5⟩] ∧
      1 ≤ (5 : Nat) ∧ (5 : Nat) ≤ 7 ∧ n_result_slider.defaultValue = 5 :=
  C6_rag_issues_one_topk_query testExt testWrag testS testModel "hi"
    "llama-3.1-8b-instruct-q4_k_m.gguf" rfl rfl rfl rfl (by decide)

/-- C9: with RAG active the augmentation rewrites only the message sent to
the model; the user record appended to the transcript carries the raw typed
prompt, for every RAG template and query result. -/
theorem C9_rag_keeps_transcript_prompt_raw (ext : Externals)
    (w : WidgetInputs) (s s' : SessionState) (qlog : List QueryCall)
    (m : Llama3) (p : String)
    (hm : s.model = some m) (hp : w.chat_input = some p) (hr : w.rag = true)
    (h : rerun ext w s = (some s', qlog)) :
    ∃ resp, s'.messages = some (s.messages.getD [] ++
      [⟨"user", "💬", p⟩, ⟨"assistant", "🦙", resp⟩]) := by
  unfold rerun at h
  cases hlk : List.lookup w.encoding model_name with
  | none =>
      rw [hlk] at h
      simp at h
  | some weights =>
      rw [hlk] at h
      dsimp only at h
      rw [effectiveInput_enabled w weights s m p hm hp] at h
      dsimp only at h
      obtain ⟨ps, hmod, hmsg⟩ := handlePrompt_success ext w _ s' p qlog h
      refine ⟨ext.streamOutput ps, ?_⟩
      rw [hmsg, initMessages_messages, afterButton_messages, Option.getD_some]

/-- C9 witness: a concrete RAG turn whose transcript user record is the raw
prompt `hi`. -/
theorem C9_witness :
    ∃ resp, (SessionState.mk (some testModel)
        (some [⟨"user", "💬", "hi"⟩, ⟨"assistant", "🦙", "a response"⟩])).messages
      = some (testS.messages.getD [] ++
        [⟨"user", "💬", "hi"⟩, ⟨"assistant", "🦙", resp⟩]) :=
  C9_rag_keeps_transcript_prompt_raw testExt testWrag testS
    ⟨some testModel, some [⟨"user", "💬", "hi"⟩, ⟨"assistant", "🦙", "a response"⟩]⟩
    [⟨"hi", 5⟩] testModel "hi" rfl rfl rfl rfl

/-- C10: when the query result's `documents` or `metadatas` is `None`, the
RAG turn does not fail: the retrieved-data list stays empty, and the
augmented user message (the RAG template applied to the prompt and the empty
data) is still constructed and streamed to the model. -/
theorem C10_none_query_result_is_safe (ext : Externals) (w : WidgetInputs)
    (s : SessionState) (m : Llama3) (p wt : String)
    (hm : s.model = some m) (hp : w.chat_input = some p) (hr : w.rag = true)
    (hlk : List.lookup w.encoding model_name = some wt)
    (hnone : (ext.collectionQuery p w.n_result).documents = none ∨
        (ext.collectionQuery p w.n_result).metadatas = none) :
    buildRagData (ext.collectionQuery p w.n_result) = some [] ∧
      ∃ s', (rerun ext w s).1 = some s' ∧
        s'.messages = some (s.messages.getD [] ++
          [⟨"user", "💬", p⟩,
           ⟨"assistant", "🦙", ext.streamOutput (messages_to_llama3_prompt
             ((⟨"system", w.system_prompt⟩ ::
               (s.messages.getD []).map (fun mm => ⟨mm.role, mm.content⟩))
               ++ [⟨"user", ext.ragFormat p []⟩]))⟩]) := by
  refine ⟨buildRagData_of_none _ hnone, ?_⟩
  unfold rerun
  rw [hlk]
  dsimp only
  rw [effectiveInput_enabled w wt s m p hm hp]
  dsimp only
  unfold handlePrompt
  dsimp only
  rw [if_pos hr, buildRagData_of_none _ hnone]
  dsimp only
  refine ⟨_, rfl, ?_⟩
  rw [initMessages_messages, afterButton_messages, Option.getD_some]

/-- C10 witness: the concrete externals return `None` for both fields and
the RAG turn still completes with an empty data list. -/
theorem C10_witness :
    buildRagData (testExt.collectionQuery "hi" testWrag.n_result) = some [] ∧
      ∃ s', (rerun testExt testWrag testS).1 = some s' ∧
        s'.messages = some (testS.messages.getD [] ++
          [⟨"user", "💬", "hi"⟩,
           ⟨"assistant", "🦙", testExt.streamOutput (messages_to_llama3_prompt
             ((⟨"system", testWrag.system_prompt⟩ ::
               (testS.messages.getD []).map (fun mm => ⟨mm.role, mm.content⟩))
               ++ [⟨"user", testExt.ragFormat "hi" []⟩]))⟩]) :=
  C10_none_query_result_is_safe testExt testWrag testS testModel "hi"
    "llama-3.1-8b-instruct-q4_k_m.gguf" rfl rfl rfl rfl (Or.inl rfl)
